import Mathlib

/-!
Shallow embedding of the landing-page front-end logic (`js/app.js`, final
revision, together with the earlier revisions of `focusSection` /
`buildNavigation` / `pageSetup` kept in the repository).

DOM elements are modelled as records carrying the data the scripts read
(`id`, `dataset.*`, geometry from `getBoundingClientRect`, `offsetTop`) and
the class lists the scripts mutate.  `classList.add` / `classList.remove`
become pure operations on `List String`.  Pixel quantities are rationals.
Timers (`setTimeout` / `clearTimeout`) are modelled by an explicit pending
slot: the ScrollManager stores at most one outstanding timer handle
(`_timeOutId`), so its timer state is an `Option` of the scheduled call's
arguments; firing the timer consumes the slot and runs the scheduled step.
-/

namespace LandingPage

/-- `element.classList.add c`: appends the token unless already present. -/
def addClass (c : String) (l : List String) : List String :=
  if c ∈ l then l else l ++ [c]

/-- `element.classList.remove c`: removes every occurrence of the token. -/
def removeClass (c : String) (l : List String) : List String :=
  l.filter (fun x => x ≠ c)

@[simp] theorem mem_addClass_iff (a c : String) (l : List String) :
    a ∈ addClass c l ↔ a ∈ l ∨ a = c := by
  unfold addClass
  by_cases h : c ∈ l <;> simp [h]
  exact fun e => e ▸ h

@[simp] theorem mem_removeClass_iff (a c : String) (l : List String) :
    a ∈ removeClass c l ↔ a ∈ l ∧ a ≠ c := by
  unfold removeClass
  simp

/-- A content section element: `id`, `dataset.nav` (display name),
`dataset.bg` (gradient scheme), geometry (`getBoundingClientRect().y` /
`.height`, `offsetTop`), its own class list, and the class list of its
`.rotates` descendant.  `rotClearPending` models the armed `setTimeout`
that later removes the rotation classes (the `delayRotation` branch of
`focusSection`). -/
structure Sec where
  id : String
  nav : String
  bg : String
  y : ℚ
  height : ℚ
  offsetTop : ℚ
  classes : List String
  rotClasses : List String
  rotClearPending : Bool
deriving DecidableEq

instance : Inhabited Sec := ⟨⟨"", "", "", 0, 0, 0, [], [], false⟩⟩

/-- A navigation `LI` element created by `buildNavigation`:
`dataset.sectionId`, the child anchor's text (`textContent`) and `href`,
and the item's class list. -/
structure NavItem where
  sectionId : String
  name : String
  href : String
  classes : List String
deriving DecidableEq

instance : Inhabited NavItem := ⟨⟨"", "", "", []⟩⟩

/-! ### ScrollManager (app.js, final revision, lines 232-282) -/

/-- Arguments of a scheduled `_scrollToPosition` call sitting in the
`setTimeout` queue.  `chain` is a ghost label identifying which `scrollTo`
invocation started the chain this tick belongs to. -/
structure PendingTick where
  chain : ℕ
  src : ℚ
  dst : ℚ
  t : ℚ
  speed : ℚ
  smooth : Bool
deriving DecidableEq

/-- ScrollManager state: `window.scrollY`, the `triggeredScrollEvent` flag,
the single outstanding timer (`_timeOutId`) and `defaultDuration`. -/
structure SMState where
  scrollY : ℚ
  triggeredScrollEvent : Bool
  pending : Option PendingTick
  defaultDuration : ℚ
deriving DecidableEq

/-- The cubic ease-out `t => { t--; return t * t * t + 1; }`. -/
def easeOut (t : ℚ) : ℚ := (t - 1) * (t - 1) * (t - 1) + 1

/-- The easing function chosen by `scrollTo`'s `smoothly` flag. -/
def motion (smooth : Bool) (t : ℚ) : ℚ := if smooth then easeOut t else t

/-- The 20 ms step between animation ticks. -/
def STEP : ℚ := 20

/-- `this._scrollToPosition(from, to, timeSinceStart, speed, motion)`:
sets the flag, snaps to the target when progress is outside `[0,1]` or the
speed is non-positive, otherwise writes the interpolated position and
schedules the next tick 20 ms later. -/
def scrollToPosition (chain : ℕ) (src dst t speed : ℚ) (smooth : Bool)
    (s : SMState) : SMState :=
  let s := { s with triggeredScrollEvent := true }
  if t < 0 ∨ 1 < t ∨ speed ≤ 0 then
    { s with scrollY := dst, pending := none }
  else
    { s with scrollY := src - (src - dst) * motion smooth t,
             pending := some ⟨chain, src, dst, t + speed * STEP, speed, smooth⟩ }

/-- `clearTimeout(this._timeOutId)`: cancels the outstanding timer. -/
def clearPendingTimer (s : SMState) : SMState := { s with pending := none }

/-- `this.scrollTo(target, duration, smoothly)`: clears the pending timer,
resolves the default duration, then either starts the tick chain
(duration > 0) or jumps straight to the target. -/
def scrollTo (chain : ℕ) (target : Sec) (duration : Option ℚ)
    (smoothly : Bool) (s : SMState) : SMState :=
  let targetY := target.offsetTop
  let s := clearPendingTimer s
  let d := duration.getD s.defaultDuration
  if 0 < d then
    scrollToPosition chain s.scrollY targetY 0 (1 / d) smoothly s
  else
    { s with triggeredScrollEvent := true, scrollY := targetY }

/-- The browser delivering the outstanding `setTimeout` callback: the
timer slot is consumed and the scheduled `_scrollToPosition` call runs. -/
def fireTick (s : SMState) : SMState :=
  match s.pending with
  | none => s
  | some p =>
      scrollToPosition p.chain p.src p.dst p.t p.speed p.smooth
        { s with pending := none }

/-- The properties the `ScrollManager` constructor installs on `this`. -/
def ScrollManagerMembers : List String :=
  ["defaultDuration", "triggeredScrollEvent", "_timeOutId",
   "scrollTo", "_scrollToPosition"]

/-! ### Helper functions (app.js, final revision, lines 149-216) -/

/-- `window.matchMedia('(max-width: 960px)').matches` for a viewport of
the given width: a max-width query is inclusive. -/
def hasSmallScreen (windowWidth : ℚ) : Bool := windowWidth ≤ 960

/-- `onNavTransitionEnd`: drop the fade classes and, if the menu is not
open, mark it hidden. -/
def onNavTransitionEnd (navContainerClasses : List String) : List String :=
  let c := removeClass "fade--slow" (removeClass "fade" navContainerClasses)
  if "open" ∈ c then c else addClass "hidden" c

/-- `onContentTransitionEnd`: drop the fade class and, if the content is
not open, mark it hidden. -/
def onContentTransitionEnd (contentClasses : List String) : List String :=
  let c := removeClass "fade" contentClasses
  if "open" ∈ c then c else addClass "hidden" c

/-- `getSectionWithId(sectionId, contentSections)`: first section whose
`id` matches, `undefined` (here `none`) when there is no match. -/
def getSectionWithId (sectionId : String) (contentSections : List Sec) :
    Option Sec :=
  match contentSections with
  | [] => none
  | s :: rest =>
      if s.id = sectionId then some s else getSectionWithId sectionId rest

/-- `isSectionInView(section, withinScreenPercent)` for a viewport of the
given height: the section's vertical center is strictly within
`withinScreenPercent * windowHeight` of the viewport's vertical center. -/
def isSectionInView (s : Sec) (withinScreenPercent windowHeight : ℚ) : Bool :=
  let windowYCenter := windowHeight / 2
  let yCenter := s.y + s.height / 2
  |yCenter - windowYCenter| < withinScreenPercent * windowHeight

/-! ### Page state

The mutable DOM state the final revision touches: the section list, the
nav items, the class lists of the nav container / nav toggle / main
content container / body / gradient background element, the Navigation
object's inactivity timer and transition-end handler registration, the
viewport geometry and the ScrollManager. -/

structure PageState where
  sections : List Sec
  navItems : List NavItem
  navContainerClasses : List String
  navToggleClasses : List String
  contentClasses : List String
  bodyClasses : List String
  gradientBgClasses : List String
  inactivityTimerArmed : Bool
  transitionHandlersRegistered : Bool
  windowWidth : ℚ
  windowHeight : ℚ
  sm : SMState
deriving DecidableEq

/-! ### Navigation menu visibility (app.js, final revision, lines 415-548) -/

/-- `Navigation.openNavMenu(contentContainer, fade)`. -/
def openNavMenu (fade : Bool) (p : PageState) : PageState :=
  let mobile := hasSmallScreen p.windowWidth
  let navC :=
    let c := removeClass "hidden" (addClass "open" p.navContainerClasses)
    if fade then addClass "fade" c else c
  let contentC :=
    let c := removeClass "hidden" (removeClass "open" p.contentClasses)
    if fade ∧ mobile then addClass "fade" c else c
  let bodyC :=
    if mobile then addClass "disable-scroll" p.bodyClasses else p.bodyClasses
  let registered := if fade then true else p.transitionHandlersRegistered
  let toggleC :=
    removeClass "nav-toggle--highlight"
      (addClass "nav-toggle--toggled" p.navToggleClasses)
  { p with
      navContainerClasses := navC
      contentClasses := contentC
      bodyClasses := bodyC
      transitionHandlersRegistered := registered
      inactivityTimerArmed := true
      navToggleClasses := toggleC }

/-- `Navigation.closeNavMenu(contentContainer, fade)`. -/
def closeNavMenu (fade : Bool) (p : PageState) : PageState :=
  let mobile := hasSmallScreen p.windowWidth
  let navC :=
    let c := removeClass "open" p.navContainerClasses
    if fade then addClass "fade" (removeClass "hidden" c)
    else addClass "hidden" c
  let contentC :=
    let c := removeClass "hidden" (addClass "open" p.contentClasses)
    if fade ∧ mobile then addClass "fade" c else c
  let bodyC := removeClass "disable-scroll" p.bodyClasses
  let registered := if fade then true else p.transitionHandlersRegistered
  let toggleC :=
    addClass "nav-toggle--highlight"
      (removeClass "nav-toggle--toggled" p.navToggleClasses)
  { p with
      navContainerClasses := navC
      contentClasses := contentC
      bodyClasses := bodyC
      transitionHandlersRegistered := registered
      navToggleClasses := toggleC }

/-- The browser delivering `transitionend` on the main content container:
only has an effect once `handleTransitionEnd` registered the handler. -/
def fireContentTransitionEnd (p : PageState) : PageState :=
  if p.transitionHandlersRegistered then
    { p with contentClasses := onContentTransitionEnd p.contentClasses }
  else p

/-! ### focusSection (app.js, final revision, lines 569-652) -/

/-- One iteration of the focus loop over `contentSections`. -/
def focusSecStep (targetId : String) (s : Sec) : Sec :=
  if s.id = targetId then { s with classes := addClass "focus" s.classes }
  else { s with classes := removeClass "focus" s.classes }

/-- The first loop of `focusSection`: focus exactly the sections whose
`id` matches `section.id`, unfocus all others. -/
def focusSections (targetId : String) (sections : List Sec) : List Sec :=
  sections.map (focusSecStep targetId)

/-- One iteration of the focus loop over `nav.navItems`. -/
def focusItemStep (targetId : String) (it : NavItem) : NavItem :=
  if it.sectionId = targetId then
    { it with classes := addClass "focus" it.classes }
  else { it with classes := removeClass "focus" it.classes }

/-- The second loop of `focusSection`: focus exactly the nav items whose
`dataset.sectionId` matches `section.id`, unfocus all others. -/
def focusNavItems (targetId : String) (items : List NavItem) : List NavItem :=
  items.map (focusItemStep targetId)

/-- `removeRotation(r)`: clear both rotation classes. -/
def removeRotation (r : List String) : List String :=
  removeClass "rotate-ccw" (removeClass "rotate-cw" r)

/-- One iteration of the rotation loop of `focusSection`: the focused
section's `.rotates` element loses its rotation classes (immediately, or
later via an armed timer when `delayRotation`); every other section's
`.rotates` element gains `rotate-ccw` when the window's vertical center is
above the section's vertical center (`windowYCenter < yCenter`, the
section's center lies below), and `rotate-cw` otherwise. -/
def rotationStep (targetId : String) (delayRotation : Bool)
    (windowHeight : ℚ) (s : Sec) : Sec :=
  if s.id = targetId then
    if delayRotation then { s with rotClearPending := true }
    else { s with rotClasses := removeRotation s.rotClasses }
  else
    let windowYCenter := windowHeight / 2
    let yCenter := s.y + s.height / 2
    if windowYCenter < yCenter then
      { s with rotClasses := addClass "rotate-ccw" s.rotClasses }
    else
      { s with rotClasses := addClass "rotate-cw" s.rotClasses }

/-- The rotation loop of `focusSection` (lines 627-651). -/
def updateRotation (targetId : String) (delayRotation : Bool)
    (windowHeight : ℚ) (sections : List Sec) : List Sec :=
  sections.map (rotationStep targetId delayRotation windowHeight)

/-- The gradient switch of `focusSection` (lines 595-611): clear every
class starting with `gradient-bg--` from the gradient element and the
body, then add the section's own gradient class to both. -/
def switchGradient (target : Sec) (p : PageState) : PageState :=
  let gradientClass := "gradient-bg--" ++ target.bg.toLower
  let clear := fun (l : List String) =>
    l.filter (fun c => ¬ c.startsWith "gradient-bg--")
  { p with
      gradientBgClasses := addClass gradientClass (clear p.gradientBgClasses)
      bodyClasses := addClass gradientClass (clear p.bodyClasses) }

/-- `focusSection(section, contentContainer, contentSections, nav, body,
useTransitions, delayRotation)` (final revision): focus marks, close the
nav menu on a small screen, switch the gradient, update rotations. -/
def focusSection (target : Sec) (useTransitions delayRotation : Bool)
    (p : PageState) : PageState :=
  let p := { p with
      sections := focusSections target.id p.sections
      navItems := focusNavItems target.id p.navItems }
  let p := if hasSmallScreen p.windowWidth then closeNavMenu useTransitions p
           else p
  let p := switchGradient target p
  { p with
      sections :=
        updateRotation target.id delayRotation p.windowHeight p.sections }

/-! ### Navigation.buildNavigation (app.js, final revision, lines 312-358) -/

/-- The nav `LI` built for one section: class `nav-menu__item`,
`dataset.sectionId` from the section's id, and an anchor child carrying
the section's `dataset.nav` as text and `#id` as `href`. -/
def mkNavItem (s : Sec) : NavItem :=
  { sectionId := s.id
    name := s.nav
    href := "#" ++ s.id
    classes := ["nav-menu__item"] }

/-- The construction loop of `buildNavigation`: one nav item per content
section, appended to the container in document order. -/
def buildNavigation (contentSections : List Sec) : List NavItem :=
  contentSections.map mkNavItem

/-- The click handler `buildNavigation` registers on a nav item: look the
section up by the item's `dataset.sectionId`; when found, focus it (with
transitions and delayed rotation) and command the ScrollManager to scroll
to it; when not found, do nothing. -/
def onNavItemClick (chain : ℕ) (navItem : NavItem) (p : PageState) :
    PageState :=
  match getSectionWithId navItem.sectionId p.sections with
  | none => p
  | some sec =>
      let p := focusSection sec true true p
      { p with sm := scrollTo chain sec none true p.sm }

/-! ### Earlier revisions (app.js lines 15-42 and 124-137; part_000) -/

/-- `classList.add('focus')` on the first list entry matching the id
(the element `Array.find` / `getElementWithId` returns). -/
def addFocusToFirstSec (sectionId : String) (l : List Sec) : List Sec :=
  match l with
  | [] => []
  | s :: rest =>
      if s.id = sectionId then
        { s with classes := addClass "focus" s.classes } :: rest
      else s :: addFocusToFirstSec sectionId rest

/-- Same for the nav-item list, matching on `dataset.sectionId`. -/
def addFocusToFirstItem (sectionId : String) (l : List NavItem) :
    List NavItem :=
  match l with
  | [] => []
  | it :: rest =>
      if it.sectionId = sectionId then
        { it with classes := addClass "focus" it.classes } :: rest
      else it :: addFocusToFirstItem sectionId rest

/-- The early revision of `focusSection(sectionId, contentSections,
navItems)`: remove focus everywhere, then add it to the found section and
the found nav item (skipping each add when not found). -/
def focusSectionEarly (sectionId : String) (sections : List Sec)
    (items : List NavItem) : List Sec × List NavItem :=
  let cleared :=
    sections.map (fun s => { s with classes := removeClass "focus" s.classes })
  let clearedItems :=
    items.map (fun it => { it with classes := removeClass "focus" it.classes })
  (addFocusToFirstSec sectionId cleared,
   addFocusToFirstItem sectionId clearedItems)

/-- The initial-focus step of the early `pageSetup`: guarded by
`contentSections.length > 0`. -/
def pageSetupEarlyFocus (sections : List Sec) (items : List NavItem) :
    List Sec × List NavItem :=
  if 0 < sections.length then
    focusSectionEarly ((sections.headI).id) sections items
  else (sections, items)

/-- The initial-focus step of the final `pageSetup` (line 707):
`focusSection(contentSections[0], ..., false)`, with no emptiness guard. -/
def pageSetupInitialFocus (p : PageState) : PageState :=
  focusSection p.sections.headI false false p

/-! ### Sample concrete page data (used by closed witness statements) -/

def secIntro : Sec :=
  ⟨"intro", "Intro", "Purple", 0, 100, 0, [], [], false⟩

def secAbout : Sec :=
  ⟨"about", "About", "Blue", 100, 100, 100, [], [], false⟩

def secContact : Sec :=
  ⟨"contact", "Contact", "Green", 200, 100, 200, [], [], false⟩

def sampleSections : List Sec := [secIntro, secAbout, secContact]

def sampleSM : SMState := ⟨0, false, none, 1200⟩

/-- A freshly set-up page at the given viewport width. -/
def mkPage (w : ℚ) : PageState :=
  { sections := sampleSections
    navItems := buildNavigation sampleSections
    navContainerClasses := []
    navToggleClasses := []
    contentClasses := []
    bodyClasses := []
    gradientBgClasses := []
    inactivityTimerArmed := false
    transitionHandlersRegistered := false
    windowWidth := w
    windowHeight := 800
    sm := sampleSM }

/-! ### Shared lemmas about the focus classes -/

/-- Bool predicate: the section carries the `focus` marker. -/
def isFocusedSec (s : Sec) : Bool := "focus" ∈ s.classes

/-- Bool predicate: the nav item carries the `focus` marker. -/
def isFocusedItem (it : NavItem) : Bool := "focus" ∈ it.classes

theorem isFocusedSec_focusSecStep (tid : String) (s : Sec) :
    isFocusedSec (focusSecStep tid s) = decide (s.id = tid) := by
  unfold isFocusedSec focusSecStep
  by_cases h : s.id = tid <;> simp [h]

theorem isFocusedItem_focusItemStep (tid : String) (it : NavItem) :
    isFocusedItem (focusItemStep tid it) = decide (it.sectionId = tid) := by
  unfold isFocusedItem focusItemStep
  by_cases h : it.sectionId = tid <;> simp [h]

theorem focusSecStep_id (tid : String) (s : Sec) :
    (focusSecStep tid s).id = s.id := by
  unfold focusSecStep
  split <;> rfl

theorem rotationStep_classes (tid : String) (d : Bool) (wh : ℚ) (s : Sec) :
    (rotationStep tid d wh s).classes = s.classes := by
  unfold rotationStep
  split
  · split <;> rfl
  · simp only []
    split <;> rfl

theorem rotationStep_id (tid : String) (d : Bool) (wh : ℚ) (s : Sec) :
    (rotationStep tid d wh s).id = s.id := by
  unfold rotationStep
  split
  · split <;> rfl
  · simp only []
    split <;> rfl

/-- In a duplicate-free list, a present element is counted exactly once. -/
theorem countP_eq_one_of_nodup_mem {α : Type} [DecidableEq α] (a : α) :
    ∀ l : List α, l.Nodup → a ∈ l →
      l.countP (fun x => decide (x = a)) = 1
  | [], _, hm => absurd hm (List.not_mem_nil a)
  | b :: t, hnd, hm => by
      rcases List.nodup_cons.mp hnd with ⟨hbt, hndt⟩
      rcases List.mem_cons.mp hm with rfl | hat
      · have hz : t.countP (fun x => decide (x = a)) = 0 :=
          List.countP_eq_zero.mpr (fun x hx => by
            simp only [decide_eq_true_eq]
            rintro rfl
            exact hbt hx)
        simp [List.countP_cons, hz]
      · have hba : ¬ b = a := fun e => hbt (e ▸ hat)
        have := countP_eq_one_of_nodup_mem a t hndt hat
        simp [List.countP_cons, this, hba]

theorem countFocused_focusSections (tid : String) (l : List Sec) :
    (focusSections tid l).countP isFocusedSec
      = l.countP (fun s => decide (s.id = tid)) := by
  unfold focusSections
  rw [List.countP_map]
  exact List.countP_congr
    (fun s _ => by simp [Function.comp, isFocusedSec_focusSecStep])

theorem countFocused_focusNavItems (tid : String) (l : List NavItem) :
    (focusNavItems tid l).countP isFocusedItem
      = l.countP (fun it => decide (it.sectionId = tid)) := by
  unfold focusNavItems
  rw [List.countP_map]
  exact List.countP_congr
    (fun it _ => by simp [Function.comp, isFocusedItem_focusItemStep])

theorem countFocused_updateRotation (tid : String) (d : Bool) (wh : ℚ)
    (l : List Sec) :
    (updateRotation tid d wh l).countP isFocusedSec
      = l.countP isFocusedSec := by
  unfold updateRotation
  rw [List.countP_map]
  exact List.countP_congr
    (fun s _ => by simp [Function.comp, isFocusedSec, rotationStep_classes])

theorem countP_ids_eq_one (l : List Sec) (a : String)
    (hnd : (l.map Sec.id).Nodup) (ha : a ∈ l.map Sec.id) :
    l.countP (fun s => decide (s.id = a)) = 1 := by
  have := countP_eq_one_of_nodup_mem a (l.map Sec.id) hnd ha
  rwa [List.countP_map] at this

/-- The `sections` field after the final-revision `focusSection`. -/
theorem focusSection_sections (target : Sec) (ut dr : Bool) (p : PageState) :
    (focusSection target ut dr p).sections
      = updateRotation target.id dr p.windowHeight
          (focusSections target.id p.sections) := by
  unfold focusSection
  by_cases h : hasSmallScreen p.windowWidth <;>
    simp [h, closeNavMenu, switchGradient]

/-- The `navItems` field after the final-revision `focusSection`. -/
theorem focusSection_navItems (target : Sec) (ut dr : Bool) (p : PageState) :
    (focusSection target ut dr p).navItems
      = focusNavItems target.id p.navItems := by
  unfold focusSection
  by_cases h : hasSmallScreen p.windowWidth <;>
    simp [h, closeNavMenu, switchGradient]

theorem focusItemStep_sectionId (tid : String) (it : NavItem) :
    (focusItemStep tid it).sectionId = it.sectionId := by
  unfold focusItemStep
  split <;> rfl

/-- A non-focused section sitting below the viewport's vertical center. -/
def secBelowCenter : Sec :=
  ⟨"below", "Below", "Blue", 100, 20, 600, [], [], false⟩

/-- C1 (code-bug evidence): with a 100px-high viewport (vertical center
50) and a non-focused section whose vertical center 110 lies below the
viewport center, the rotation loop of `focusSection` adds `rotate-ccw`
(and not `rotate-cw`) to the section's rotating element — the opposite of
the claim and of the code's own comment ("sections above rotate
counter-clockwise and sections below rotate clockwise"). -/
theorem rotation_direction_at_failing_input :
    ((100 : ℚ) / 2 < secBelowCenter.y + secBelowCenter.height / 2)
    ∧ "rotate-ccw" ∈
        ((updateRotation "other" false 100 [secBelowCenter]).headI).rotClasses
    ∧ "rotate-cw" ∉
        ((updateRotation "other" false 100 [secBelowCenter]).headI).rotClasses := by
  have hne : ¬ ("below" : String) = "other" := by decide
  have hne2 : ¬ ("rotate-cw" : String) = "rotate-ccw" := by decide
  refine ⟨by norm_num [secBelowCenter], ?_, ?_⟩ <;>
    norm_num [secBelowCenter, updateRotation, rotationStep, addClass,
      List.headI, hne, hne2]

theorem focusSection_count_sections (p : PageState) (S : Sec) (ut dr : Bool)
    (hnd : (p.sections.map Sec.id).Nodup) (hS : S ∈ p.sections) :
    (focusSection S ut dr p).sections.countP isFocusedSec = 1 := by
  have hid : S.id ∈ p.sections.map Sec.id := List.mem_map_of_mem Sec.id hS
  rw [focusSection_sections, countFocused_updateRotation,
      countFocused_focusSections, countP_ids_eq_one p.sections S.id hnd hid]

theorem focusSection_count_items (p : PageState) (S : Sec) (ut dr : Bool)
    (hnd : (p.sections.map Sec.id).Nodup) (hS : S ∈ p.sections)
    (hitems : p.navItems = buildNavigation p.sections) :
    (focusSection S ut dr p).navItems.countP isFocusedItem = 1 := by
  have hid : S.id ∈ p.sections.map Sec.id := List.mem_map_of_mem Sec.id hS
  rw [focusSection_navItems, hitems, countFocused_focusNavItems]
  calc (buildNavigation p.sections).countP
          (fun it => decide (it.sectionId = S.id))
      = p.sections.countP (fun s => decide (s.id = S.id)) := by
        unfold buildNavigation
        rw [List.countP_map]
        exact List.countP_congr
          (fun s _ => by simp [Function.comp, mkNavItem])
    _ = 1 := countP_ids_eq_one p.sections S.id hnd hid

theorem focusSection_ids_sections (p : PageState) (S : Sec) (ut dr : Bool) :
    ∀ s ∈ (focusSection S ut dr p).sections,
      isFocusedSec s = true → s.id = S.id := by
  rw [focusSection_sections]
  intro s hm hf
  unfold updateRotation focusSections at hm
  rcases List.mem_map.mp hm with ⟨s1, hs1, rfl⟩
  rcases List.mem_map.mp hs1 with ⟨s0, _, rfl⟩
  have hc : isFocusedSec
      (rotationStep S.id dr p.windowHeight (focusSecStep S.id s0))
      = isFocusedSec (focusSecStep S.id s0) := by
    unfold isFocusedSec
    rw [rotationStep_classes]
  rw [hc, isFocusedSec_focusSecStep] at hf
  rw [rotationStep_id, focusSecStep_id]
  exact of_decide_eq_true hf

theorem focusSection_ids_items (p : PageState) (S : Sec) (ut dr : Bool) :
    ∀ it ∈ (focusSection S ut dr p).navItems,
      isFocusedItem it = true → it.sectionId = S.id := by
  rw [focusSection_navItems]
  intro it hm hf
  unfold focusNavItems at hm
  rcases List.mem_map.mp hm with ⟨it0, _, rfl⟩
  rw [isFocusedItem_focusItemStep] at hf
  rw [focusItemStep_sectionId]
  exact of_decide_eq_true hf

/-- C2: for every section S of the content-section list (nav items built
one per section from that list), the final-revision `focusSection` leaves
exactly one section and exactly one nav item carrying the `focus` marker,
and every marked section or nav item carries S's identifier. -/
theorem focusSection_unique_focus (p : PageState) (S : Sec) (ut dr : Bool)
    (hnd : (p.sections.map Sec.id).Nodup) (hS : S ∈ p.sections)
    (hitems : p.navItems = buildNavigation p.sections) :
    ((focusSection S ut dr p).sections.countP isFocusedSec = 1)
    ∧ ((focusSection S ut dr p).navItems.countP isFocusedItem = 1)
    ∧ (∀ s ∈ (focusSection S ut dr p).sections,
        isFocusedSec s = true → s.id = S.id)
    ∧ (∀ it ∈ (focusSection S ut dr p).navItems,
        isFocusedItem it = true → it.sectionId = S.id) :=
  ⟨focusSection_count_sections p S ut dr hnd hS,
   focusSection_count_items p S ut dr hnd hS hitems,
   focusSection_ids_sections p S ut dr,
   focusSection_ids_items p S ut dr⟩

/-- C2 witness: focusing the `about` section of the sample page leaves
exactly one focused section and one focused nav item. -/
theorem focusSection_unique_focus_witness :
    ((focusSection secAbout true false (mkPage 1200)).sections.countP
        isFocusedSec = 1)
    ∧ ((focusSection secAbout true false (mkPage 1200)).navItems.countP
        isFocusedItem = 1) :=
  ⟨(focusSection_unique_focus (mkPage 1200) secAbout true false
      (by decide) (by decide) rfl).1,
   (focusSection_unique_focus (mkPage 1200) secAbout true false
      (by decide) (by decide) rfl).2.1⟩

/-- C3 counterexample: the ScrollManager constructor installs no
`interruptScroll` member at all — the operation named by the claim does
not exist on the object. -/
theorem no_interruptScroll_member :
    "interruptScroll" ∉ ScrollManagerMembers := by decide

/-- C3 (amended): the ScrollManager exposes no `interruptScroll()`;
instead, cancellation of a pending animation step is built into
`scrollTo`, whose first action clears the pending timer — an action that
by itself leaves the scroll position (and the flag) unchanged. -/
theorem scrollTo_clears_pending_first (s : SMState) :
    (clearPendingTimer s).pending = none
    ∧ (clearPendingTimer s).scrollY = s.scrollY
    ∧ (clearPendingTimer s).triggeredScrollEvent = s.triggeredScrollEvent
    ∧ (∀ c t d b, scrollTo c t d b s = scrollTo c t d b (clearPendingTimer s))
    ∧ "interruptScroll" ∉ ScrollManagerMembers :=
  ⟨rfl, rfl, rfl, fun _ _ _ _ => rfl, by decide⟩

/-- C4: during a linear animation (smoothly = false) with duration D > 0
(speed 1/D), every tick whose progress p lies in [0,1] writes exactly the
linear interpolation from + (to - from) * p; and any tick whose progress
lies outside [0,1] or whose speed is non-positive writes exactly the
target and schedules no further tick. -/
theorem scrollToPosition_linear_or_snap (c : ℕ) (src dst p D speed : ℚ)
    (smooth : Bool) (s : SMState) :
    (0 < D → 0 ≤ p → p ≤ 1 →
      (scrollToPosition c src dst p (1 / D) false s).scrollY
        = src + (dst - src) * p)
    ∧ ((p < 0 ∨ 1 < p ∨ speed ≤ 0) →
      (scrollToPosition c src dst p speed smooth s).scrollY = dst
      ∧ (scrollToPosition c src dst p speed smooth s).pending = none) := by
  constructor
  · intro hD h0 h1
    have hguard : ¬ (p < 0 ∨ 1 < p ∨ 1 / D ≤ 0) := by
      push_neg
      exact ⟨h0, h1, by positivity⟩
    unfold scrollToPosition
    rw [if_neg hguard]
    simp [motion]
    ring
  · intro hguard
    unfold scrollToPosition
    rw [if_pos hguard]
    exact ⟨rfl, rfl⟩

/-- C4 witness: a concrete in-range tick writes the linear interpolation,
and a concrete out-of-range tick snaps to the target with no timer. -/
theorem scrollToPosition_linear_or_snap_witness :
    ((scrollToPosition 0 0 10 (1/2) (1/100) false sampleSM).scrollY
        = 0 + (10 - 0) * (1/2))
    ∧ ((scrollToPosition 0 0 10 2 (1/100) false sampleSM).scrollY = 10
       ∧ (scrollToPosition 0 0 10 2 (1/100) false sampleSM).pending = none) :=
  ⟨(scrollToPosition_linear_or_snap 0 0 10 (1/2) 100 0 false sampleSM).1
      (by norm_num) (by norm_num) (by norm_num),
   (scrollToPosition_linear_or_snap 0 0 10 2 100 (1/100) false sampleSM).2
      (Or.inr (Or.inl (by norm_num)))⟩

theorem scrollToPosition_pending_chain (c : ℕ) (src dst t speed : ℚ)
    (b : Bool) (s : SMState) (pt : PendingTick)
    (h : (scrollToPosition c src dst t speed b s).pending = some pt) :
    pt.chain = c := by
  unfold scrollToPosition at h
  split at h
  · simp at h
  · simp only [Option.some.injEq] at h
    rw [← h]

theorem scrollTo_pending_chain (c : ℕ) (t : Sec) (d : Option ℚ) (b : Bool)
    (s : SMState) (pt : PendingTick)
    (h : (scrollTo c t d b s).pending = some pt) : pt.chain = c := by
  unfold scrollTo at h
  simp only [] at h
  split at h
  · exact scrollToPosition_pending_chain _ _ _ _ _ _ _ _ h
  · simp [clearPendingTimer] at h

theorem fireTick_chain (s : SMState) (c : ℕ)
    (hs : ∀ pt, s.pending = some pt → pt.chain = c) :
    ∀ pt, (fireTick s).pending = some pt → pt.chain = c := by
  intro pt h
  unfold fireTick at h
  cases hp : s.pending with
  | none => rw [hp] at h; exact hs pt h
  | some q =>
      rw [hp] at h
      have hq := hs q hp
      have hqc := scrollToPosition_pending_chain q.chain q.src q.dst q.t
        q.speed q.smooth _ pt h
      rw [hqc]
      exact hq

/-- C5: `scrollTo` begins by clearing the pending timer (calling it on a
state with a cleared timer yields the same result), and after a second
`scrollTo` every tick ever sitting in the timer slot — through any number
of timer firings — belongs to the second invocation's chain, so only the
second animation's ticks can be observed. -/
theorem scrollTo_single_timer_chain (c₁ c₂ : ℕ) (t₁ t₂ : Sec)
    (d₁ d₂ : Option ℚ) (b₁ b₂ : Bool) (s : SMState) :
    (scrollTo c₂ t₂ d₂ b₂ s = scrollTo c₂ t₂ d₂ b₂ (clearPendingTimer s))
    ∧ (∀ n pt,
        (fireTick^[n] (scrollTo c₂ t₂ d₂ b₂ (scrollTo c₁ t₁ d₁ b₁ s))).pending
          = some pt → pt.chain = c₂) := by
  constructor
  · rfl
  · intro n
    induction n with
    | zero =>
        intro pt h
        exact scrollTo_pending_chain c₂ t₂ d₂ b₂ _ pt h
    | succ k ih =>
        intro pt h
        rw [Function.iterate_succ_apply'] at h
        exact fireTick_chain _ c₂ ih pt h

/-- C5 witness: after a second concrete `scrollTo`, the tick left in the
timer slot belongs to the second chain. -/
theorem scrollTo_single_timer_chain_witness :
    (scrollTo 2 secAbout (some 100) false sampleSM
        = scrollTo 2 secAbout (some 100) false (clearPendingTimer sampleSM))
    ∧ (⟨2, 0, 100, 1/5, 1/100, false⟩ : PendingTick).chain = 2 :=
  ⟨(scrollTo_single_timer_chain 1 2 secIntro secAbout (some 100) (some 100)
      false false sampleSM).1,
   (scrollTo_single_timer_chain 1 2 secIntro secAbout (some 100) (some 100)
      false false sampleSM).2 0 ⟨2, 0, 100, 1/5, 1/100, false⟩ (by
        norm_num [scrollTo, scrollToPosition, clearPendingTimer, fireTick,
          motion, STEP, sampleSM, secAbout, secIntro])⟩

/-- C6: `isSectionInView` is monotone in the distance of the section's
vertical center from the viewport's vertical center — for a fixed
threshold fraction and viewport height, strictly decreasing that distance
can only turn "not in view" into "in view", never the reverse. -/
theorem isSectionInView_monotone (s₁ s₂ : Sec) (pct wh : ℚ)
    (hdist : |s₂.y + s₂.height / 2 - wh / 2|
              < |s₁.y + s₁.height / 2 - wh / 2|)
    (hview : isSectionInView s₁ pct wh = true) :
    isSectionInView s₂ pct wh = true := by
  unfold isSectionInView at hview ⊢
  simp only [decide_eq_true_eq] at hview ⊢
  exact lt_trans hdist hview

/-- C6 witness: the sample `about` section (center on the viewport
center) is in view because the farther `intro` section already is. -/
theorem isSectionInView_monotone_witness :
    isSectionInView secAbout (1/2) 300 = true :=
  isSectionInView_monotone secIntro secAbout (1/2) 300
    (by norm_num [secIntro, secAbout])
    (by norm_num [isSectionInView, secIntro])

theorem getSectionWithId_of_nodup (a : Sec) :
    ∀ l : List Sec, (l.map Sec.id).Nodup → a ∈ l →
      getSectionWithId a.id l = some a
  | [], _, hm => absurd hm (List.not_mem_nil a)
  | b :: t, hnd, hm => by
      have hnd2 : b.id ∉ t.map Sec.id ∧ (t.map Sec.id).Nodup := by
        rw [List.map_cons] at hnd
        exact List.nodup_cons.mp hnd
      unfold getSectionWithId
      by_cases hba : b.id = a.id
      · rcases List.mem_cons.mp hm with rfl | hat
        · rw [if_pos rfl]
        · exact absurd (hba ▸ List.mem_map_of_mem Sec.id hat) hnd2.1
      · rw [if_neg hba]
        rcases List.mem_cons.mp hm with rfl | hat
        · exact absurd rfl hba
        · exact getSectionWithId_of_nodup a t hnd2.2 hat

/-- `focusSection` never touches the ScrollManager. -/
theorem focusSection_sm (target : Sec) (ut dr : Bool) (p : PageState) :
    (focusSection target ut dr p).sm = p.sm := by
  unfold focusSection
  by_cases h : hasSmallScreen p.windowWidth <;>
    simp [h, closeNavMenu, switchGradient]

/-- Both branches of `scrollTo` set `triggeredScrollEvent`. -/
theorem scrollTo_triggered (c : ℕ) (t : Sec) (d : Option ℚ) (b : Bool)
    (s : SMState) :
    (scrollTo c t d b s).triggeredScrollEvent = true := by
  unfold scrollTo
  simp only []
  split
  · unfold scrollToPosition
    split <;> rfl
  · rfl

/-- C7: `buildNavigation` creates exactly one nav item per content
section, in document order, each carrying the section's identifier,
display name and `#identifier` link; clicking the i-th item focuses
exactly its own section (every section marked focused carries its id) and
commands the ScrollManager to scroll to that section. -/
theorem buildNavigation_items_and_click (sections : List Sec) (chain : ℕ)
    (p : PageState) (i : ℕ) (s : Sec)
    (hnd : (sections.map Sec.id).Nodup)
    (hsec : p.sections = sections)
    (hget : sections[i]? = some s) :
    ((buildNavigation sections).length = sections.length)
    ∧ ((buildNavigation sections)[i]? = some (mkNavItem s))
    ∧ ((mkNavItem s).sectionId = s.id ∧ (mkNavItem s).name = s.nav
        ∧ (mkNavItem s).href = "#" ++ s.id)
    ∧ ((onNavItemClick chain (mkNavItem s) p).sections.countP isFocusedSec
        = 1)
    ∧ (∀ x ∈ (onNavItemClick chain (mkNavItem s) p).sections,
        isFocusedSec x = true → x.id = s.id)
    ∧ ((onNavItemClick chain (mkNavItem s) p).sm
        = scrollTo chain s none true p.sm)
    ∧ ((onNavItemClick chain (mkNavItem s) p).sm.triggeredScrollEvent
        = true) := by
  have hmem : s ∈ sections := by
    rcases List.getElem?_eq_some.mp hget with ⟨hi, he⟩
    exact he ▸ List.getElem_mem hi
  have hfind : getSectionWithId (mkNavItem s).sectionId p.sections
      = some s := by
    rw [hsec]
    exact getSectionWithId_of_nodup s sections hnd hmem
  have hclick : onNavItemClick chain (mkNavItem s) p
      = { focusSection s true true p with
            sm := scrollTo chain s none true (focusSection s true true p).sm } := by
    unfold onNavItemClick
    rw [hfind]
  have hndp : (p.sections.map Sec.id).Nodup := by rw [hsec]; exact hnd
  have hSp : s ∈ p.sections := by rw [hsec]; exact hmem
  refine ⟨?_, ?_, ⟨rfl, rfl, rfl⟩, ?_, ?_, ?_, ?_⟩
  · unfold buildNavigation
    rw [List.length_map]
  · unfold buildNavigation
    rw [List.getElem?_map, hget]
    rfl
  · rw [hclick]
    exact focusSection_count_sections p s true true hndp hSp
  · rw [hclick]
    exact focusSection_ids_sections p s true true
  · rw [hclick]
    show scrollTo chain s none true (focusSection s true true p).sm
        = scrollTo chain s none true p.sm
    rw [focusSection_sm]
  · rw [hclick]
    show (scrollTo chain s none true
        (focusSection s true true p).sm).triggeredScrollEvent = true
    rw [scrollTo_triggered]

/-- C7 witness: on the three-section sample page, the second nav item is
the `about` item, and clicking it focuses exactly one section and starts
a scroll toward `about`. -/
theorem buildNavigation_items_and_click_witness :
    ((buildNavigation sampleSections).length = sampleSections.length)
    ∧ ((buildNavigation sampleSections)[1]? = some (mkNavItem secAbout))
    ∧ ((onNavItemClick 0 (mkNavItem secAbout)
          (mkPage 1200)).sections.countP isFocusedSec = 1)
    ∧ ((onNavItemClick 0 (mkNavItem secAbout) (mkPage 1200)).sm
        = scrollTo 0 secAbout none true (mkPage 1200).sm) := by
  have h := buildNavigation_items_and_click sampleSections 0 (mkPage 1200)
    1 secAbout (by decide) rfl (by decide)
  exact ⟨h.1, h.2.1, h.2.2.2.1, h.2.2.2.2.2.1⟩

theorem hasSmallScreen_true_of_le (w : ℚ) (hw : w ≤ 960) :
    hasSmallScreen w = true := by
  unfold hasSmallScreen
  exact decide_eq_true hw

theorem hasSmallScreen_false_of_gt (w : ℚ) (hw : 960 < w) :
    hasSmallScreen w = false := by
  unfold hasSmallScreen
  exact decide_eq_false (not_le.mpr hw)

/-- C8 counterexample: at viewport width exactly 960 — inside the claim's
"at least 960px" range — the inclusive `max-width: 960px` media query
still matches, so opening the nav menu adds `disable-scroll` to a body
that did not carry it: the body's page-scroll state is changed. -/
theorem openNavMenu_at_960_changes_scroll :
    ((960 : ℚ) ≤ (mkPage 960).windowWidth)
    ∧ "disable-scroll" ∉ (mkPage 960).bodyClasses
    ∧ "disable-scroll" ∈ (openNavMenu true (mkPage 960)).bodyClasses := by
  have hm : hasSmallScreen (960 : ℚ) = true :=
    hasSmallScreen_true_of_le _ (by norm_num)
  refine ⟨by norm_num [mkPage], by decide, ?_⟩
  simp [openNavMenu, mkPage, hm]

/-- C8 (amended): opening the nav menu on a viewport of width at most
960px (the inclusive max-width breakpoint) adds `disable-scroll` to the
body and marks main content hidden once its fade transition ends; on a
viewport strictly wider than 960px it leaves the body's class list
unchanged. -/
theorem openNavMenu_breakpoint (p : PageState) :
    (p.windowWidth ≤ 960 →
      "disable-scroll" ∈ (openNavMenu true p).bodyClasses
      ∧ "hidden" ∈
          (fireContentTransitionEnd (openNavMenu true p)).contentClasses)
    ∧ (960 < p.windowWidth →
      (openNavMenu true p).bodyClasses = p.bodyClasses) := by
  constructor
  · intro hw
    have hm : hasSmallScreen p.windowWidth = true :=
      hasSmallScreen_true_of_le _ hw
    constructor
    · simp [openNavMenu, hm]
    · have hreg : (openNavMenu true p).transitionHandlersRegistered
          = true := by
        simp [openNavMenu]
      have hcontent : (openNavMenu true p).contentClasses
          = addClass "fade"
              (removeClass "hidden" (removeClass "open" p.contentClasses)) := by
        simp [openNavMenu, hm]
      unfold fireContentTransitionEnd
      rw [hreg]
      simp only [if_true]
      rw [hcontent]
      unfold onContentTransitionEnd
      have hopen : "open" ∉ removeClass "fade" (addClass "fade"
          (removeClass "hidden" (removeClass "open" p.contentClasses))) := by
        simp
      rw [if_neg hopen]
      simp
  · intro hw
    have hm : hasSmallScreen p.windowWidth = false :=
      hasSmallScreen_false_of_gt _ hw
    simp [openNavMenu, hm]

/-- C8 witness: on a 400px-wide sample page, opening the nav menu
disables page scroll and, after the fade transition ends, hides the main
content. -/
theorem openNavMenu_breakpoint_witness :
    "disable-scroll" ∈ (openNavMenu true (mkPage 400)).bodyClasses
    ∧ "hidden" ∈
        (fireContentTransitionEnd (openNavMenu true (mkPage 400))).contentClasses :=
  (openNavMenu_breakpoint (mkPage 400)).1 (by norm_num [mkPage])

theorem getSectionWithId_eq_none (sectionId : String) :
    ∀ l : List Sec, (∀ s ∈ l, ¬ s.id = sectionId) →
      getSectionWithId sectionId l = none
  | [], _ => rfl
  | b :: t, h => by
      unfold getSectionWithId
      rw [if_neg (h b (List.mem_cons_self b t))]
      exact getSectionWithId_eq_none sectionId t
        (fun s hs => h s (List.mem_cons_of_mem b hs))

/-- C9: a lookup of an absent identifier returns `undefined` (`none`)
rather than failing; the nav-item click handler whose identifier is
absent from the section list is a complete no-op on the page; and
focusing an absent identifier leaves no section marked focused (degraded
visuals, no error). -/
theorem absent_lookup_noop (sectionId : String) (sections : List Sec)
    (chain : ℕ) (item : NavItem) (p : PageState) :
    ((∀ s ∈ sections, ¬ s.id = sectionId) →
      getSectionWithId sectionId sections = none)
    ∧ ((∀ s ∈ p.sections, ¬ s.id = item.sectionId) →
      onNavItemClick chain item p = p)
    ∧ ((∀ s ∈ sections, ¬ s.id = sectionId) →
      ∀ s ∈ focusSections sectionId sections, isFocusedSec s = false) := by
  refine ⟨getSectionWithId_eq_none sectionId sections, ?_, ?_⟩
  · intro habs
    unfold onNavItemClick
    rw [getSectionWithId_eq_none item.sectionId p.sections habs]
  · intro habs s hm
    unfold focusSections at hm
    rcases List.mem_map.mp hm with ⟨s0, hs0, rfl⟩
    rw [isFocusedSec_focusSecStep]
    exact decide_eq_false (habs s0 hs0)

/-- C9 witness: a missing identifier yields `none`, and clicking a nav
item whose section is absent leaves the sample page untouched. -/
theorem absent_lookup_noop_witness :
    (getSectionWithId "missing" sampleSections = none)
    ∧ (onNavItemClick 0 (mkNavItem secBelowCenter) (mkPage 1200)
        = mkPage 1200) := by
  have h := absent_lookup_noop "missing" sampleSections 0
    (mkNavItem secBelowCenter) (mkPage 1200)
  exact ⟨h.1 (by decide), h.2.1 (by decide)⟩

theorem headI_mem_of_ne_nil (l : List Sec) (h : l ≠ []) : l.headI ∈ l := by
  cases l with
  | nil => exact absurd rfl h
  | cons a t => exact List.mem_cons_self a t

/-- C10: on a page with a non-empty content-section list (nav items built
from it), the final revision's unguarded initial focus leaves the first
section and the first nav item carrying the focus marker, with exactly
one focused section and one focused nav item in total; the earlier
revisions' guarded initial focus is the identity on an empty list. -/
theorem pageSetup_initial_focus (p : PageState)
    (hne : p.sections ≠ [])
    (hnd : (p.sections.map Sec.id).Nodup)
    (hitems : p.navItems = buildNavigation p.sections) :
    (isFocusedSec ((pageSetupInitialFocus p).sections.headI) = true)
    ∧ ((pageSetupInitialFocus p).sections.countP isFocusedSec = 1)
    ∧ (isFocusedItem ((pageSetupInitialFocus p).navItems.headI) = true)
    ∧ ((pageSetupInitialFocus p).navItems.countP isFocusedItem = 1)
    ∧ (∀ items : List NavItem, pageSetupEarlyFocus [] items = ([], items)) := by
  have hS : p.sections.headI ∈ p.sections := headI_mem_of_ne_nil _ hne
  refine ⟨?_, ?_, ?_, ?_, fun items => rfl⟩
  · unfold pageSetupInitialFocus
    rw [focusSection_sections]
    rcases hl : p.sections with _ | ⟨a, t⟩
    · exact absurd hl hne
    · simp only [List.headI]
      unfold updateRotation focusSections
      rw [List.map_cons, List.map_cons]
      simp only [List.headI]
      have hc : isFocusedSec
          (rotationStep a.id false p.windowHeight (focusSecStep a.id a))
          = isFocusedSec (focusSecStep a.id a) := by
        unfold isFocusedSec
        rw [rotationStep_classes]
      rw [hc, isFocusedSec_focusSecStep]
      simp
  · exact focusSection_count_sections p p.sections.headI false false hnd hS
  · unfold pageSetupInitialFocus
    rw [focusSection_navItems, hitems]
    rcases hl : p.sections with _ | ⟨a, t⟩
    · exact absurd hl hne
    · simp only [List.headI]
      unfold focusNavItems buildNavigation
      rw [List.map_cons, List.map_cons]
      simp only [List.headI]
      rw [isFocusedItem_focusItemStep]
      simp [mkNavItem]
  · exact focusSection_count_items p p.sections.headI false false hnd hS
      hitems

/-- C10 witness: the sample page's unguarded initial focus marks the
first (`intro`) section focused, and exactly one section in total. -/
theorem pageSetup_initial_focus_witness :
    (isFocusedSec ((pageSetupInitialFocus (mkPage 1200)).sections.headI)
      = true)
    ∧ ((pageSetupInitialFocus (mkPage 1200)).sections.countP isFocusedSec
      = 1) := by
  have h := pageSetup_initial_focus (mkPage 1200) (by decide) (by decide)
    rfl
  exact ⟨h.1, h.2.1⟩

end LandingPage
